import Mathlib

/-
Verification development for the TrimbleGeoDBToDatabase repository.

The repository translates rows of geodatabase feature classes into SQL
scripts. The embedding below models, from the source:
  - TrimbleUtility.GetDateTime (strftime on a datetime, or the
    AttributeError a null datetime raises),
  - Python float values as exact decimals (structure Dec), Python round
    (banker's rounding at a decimal position) and Python str of a float
    (trailing zeros stripped, at least one fractional digit),
  - the per-row transformation loops of the six export functions in
    TrimbleGeoDBToDatabase.py, with their accumulator state, including
    the stale-variable carry-over of VegType (ExportLoonsJoined) and of
    the five collection flags (ExportWaterSampleJoined),
  - the trailing-separator trimming of the assembled guard and preview
    lists, and the try/except wrapper of each export function.

File writing, the provenance header (GetFileHeader uses the current user
and clock) and the arcpy workspace plumbing are environment I/O and are
not modeled; the modeled output of an export is the SQL text it writes
after the header.
-/

namespace Trimble

/-- Python datetime value (naive local datetime as used by the scripts). -/
structure PyDateTime where
  year : Nat
  month : Nat
  day : Nat
  hour : Nat
  minute : Nat
  second : Nat
deriving DecidableEq, Repr

/-- Exact decimal model of a Python float field value: m / 10 ^ e.
Field data (coordinates, depths) is decimal-entered, so the decimal
model matches the observable str/round behavior of the source. -/
structure Dec where
  m : Int
  e : Nat
deriving DecidableEq, Repr

/-- One decimal digit as a character. -/
def digitChar10 (n : Nat) : Char :=
  if n = 0 then '0' else if n = 1 then '1' else if n = 2 then '2' else if n = 3 then '3'
  else if n = 4 then '4' else if n = 5 then '5' else if n = 6 then '6' else if n = 7 then '7'
  else if n = 8 then '8' else '9'

/-- The e low decimal digits of a, zero padded to exactly e characters. -/
def padDigits : Nat → Nat → List Char
  | _, 0 => []
  | a, e + 1 => padDigits (a / 10) e ++ [digitChar10 (a % 10)]

/-- Fuel-driven decimal digits of a natural number (most significant first). -/
def natDigitsGo : Nat → Nat → List Char
  | 0, _ => []
  | fuel + 1, n => if n < 10 then [digitChar10 n] else natDigitsGo fuel (n / 10) ++ [digitChar10 (n % 10)]

/-- Decimal digits of a natural number. -/
def natDigits (n : Nat) : List Char := natDigitsGo (n + 1) n

/-- Round-half-to-even integer division (Python round semantics), d > 0. -/
def halfEvenDiv (m d : Int) : Int :=
  let q := Int.ediv m d
  let r := Int.emod m d
  if 2 * r < d then q
  else if d < 2 * r then q + 1
  else if Int.emod q 2 = 0 then q else q + 1

/-- Python round(x, n) on the decimal model: round to n fractional digits
(a value already having at most n fractional digits is returned as is). -/
def pyRound (x : Dec) (n : Nat) : Dec :=
  if x.e ≤ n then x
  else ⟨halfEvenDiv x.m (10 ^ (x.e - n) : Nat), n⟩

/-- Strip trailing zero fractional digits: given the exponent and the
mantissa, divide out factors of 10 while the fractional part allows. -/
def normTrim : Nat → Int → Int × Nat
  | 0, m => (m, 0)
  | e + 1, m => if Int.emod m 10 = 0 then normTrim e (Int.ediv m 10) else (m, e + 1)

/-- Character list of a normalized mantissa and exponent: sign, integer
digits, a dot, then exactly e fractional digits (a single 0 when e is
zero). -/
def decCharsCore (m : Int) (e : Nat) : List Char :=
  if e = 0 then (if m < 0 then ['-'] else []) ++ natDigits m.natAbs ++ ['.'] ++ ['0']
  else (if m < 0 then ['-'] else []) ++ natDigits (m.natAbs / 10 ^ e) ++ ['.'] ++ padDigits (m.natAbs % 10 ^ e) e

/-- Character list of the Python str of a float on the decimal model:
trailing fractional zeros stripped but at least one fractional digit
kept. -/
def decChars (x : Dec) : List Char :=
  decCharsCore (normTrim x.e x.m).1 (normTrim x.e x.m).2

/-- Python str of a float, on the decimal model. -/
def pyStr (x : Dec) : String := String.mk (decChars x)

/-- Python str of an int. -/
def pyStrInt : Option Int → String
  | none => "None"
  | some n => toString n

/-- Python str applied to a nullable string field: str(None) is "None". -/
def pyStrOpt : Option String → String
  | none => "None"
  | some s => s

/-- Python str applied to a nullable float field. -/
def pyStrOptDec : Option Dec → String
  | none => "None"
  | some d => pyStr d

/-- Python str.strip(): drop leading and trailing whitespace. -/
def pyStrip (s : String) : String :=
  String.mk (((s.data.dropWhile Char.isWhitespace).reverse.dropWhile Char.isWhitespace).reverse)

/-- Python str.upper(), character-wise (ASCII data). -/
def pyUpper (s : String) : String := String.mk (s.data.map Char.toUpper)

/-- Python s[:len(s) - n]: drop the last n characters. -/
def pyDropRight (s : String) (n : Nat) : String :=
  String.mk (s.data.take (s.data.length - n))

/-- Python string.join of a list of strings (the join with empty separator
used via ''.join and += accumulation in the source). -/
def pyJoin (l : List String) : String := l.foldl (fun a b => a ++ b) ""

/-- Lexicographic comparison of character lists by code point. -/
def strLeChars : List Char → List Char → Bool
  | [], _ => true
  | _ :: _, [] => false
  | a :: as, b :: bs => if a = b then strLeChars as bs else decide (a.val < b.val)

/-- Python string less-or-equal (lexicographic by code point), as used by
the date range comparisons on YYYY-MM-DD strings. -/
def pyLe (a b : String) : Bool := strLeChars a.data b.data

/-- Number of characters after the last dot of a string (the number of
digits after the decimal point of a numeric literal). -/
def fracLen (s : String) : Nat :=
  (s.data.reverse.takeWhile (fun c => c != '.')).length

/-- Message of the AttributeError raised by None.strftime, i.e. by
TrimbleUtility.GetDateTime on a null datetime. -/
def attrErrNone : String := "AttributeError: NoneType object has no attribute strftime"

/-- TrimbleUtility.GetDateTime on a non-null datetime: strftime with
format d (date), t (time) or dt (date and time); only these three modes
are used by the callers. -/
def GetDateTime (dt : PyDateTime) (mode : String) : String :=
  if mode = "d" then
    String.mk (padDigits dt.year 4) ++ "-" ++ String.mk (padDigits dt.month 2) ++ "-" ++ String.mk (padDigits dt.day 2)
  else if mode = "t" then
    String.mk (padDigits dt.hour 2) ++ ":" ++ String.mk (padDigits dt.minute 2) ++ ":" ++ String.mk (padDigits dt.second 2)
  else
    String.mk (padDigits dt.year 4) ++ "-" ++ String.mk (padDigits dt.month 2) ++ "-" ++ String.mk (padDigits dt.day 2)
    ++ " " ++
    String.mk (padDigits dt.hour 2) ++ ":" ++ String.mk (padDigits dt.minute 2) ++ ":" ++ String.mk (padDigits dt.second 2)

/-- TrimbleUtility.GetDateTime as invoked on a nullable field: a null
datetime raises AttributeError inside strftime. -/
def GetDateTimeOpt (dt : Option PyDateTime) (mode : String) : Except String String :=
  match dt with
  | none => Except.error attrErrNone
  | some d => Except.ok (GetDateTime d mode)

/-- Row of the Secchi_Joined feature class, with the fields read by
ExportSecchiJoined. -/
structure SecchiRow where
  CreationDateTimeLocal : Option PyDateTime
  LakeNum : String
  Secchi_Depth_in_meters : Option Dec
  OnBottom : String
  Comments : String
deriving DecidableEq, Repr

/-- Accumulators of the ExportSecchiJoined row loop. -/
structure SecchiAcc where
  LakeExistQueries : List String
  InsertQueries : List String
  PreviewQuery : String
deriving DecidableEq, Repr

/-- The comment line prepended to the lake existence guard list. -/
def LakeExistQueriesComments : String :=
  "\x2d- All the lakes in the input geodatabase must exist in tblPonds before events can be created or updated\n"

/-- Initial value of the Secchi preview query accumulator. -/
def secchiPreviewHeader : String :=
  "SELECT PONDNAME, SAMPLEDATE, SECCHIDEPTH, SECCHIONBOTTOM, SECCHINOTES FROM tblEvents WHERE \n"

/-- Initial accumulator state of ExportSecchiJoined. -/
def secchiInit : SecchiAcc := ⟨[], [], secchiPreviewHeader⟩

/-- Secchi depth literal: round to 1 decimal place, null becomes SQL NULL. -/
def secchiDepthLit (row : SecchiRow) : String :=
  match row.Secchi_Depth_in_meters with
  | some d => pyStr (pyRound d 1)
  | none => "NULL"

/-- Body of the ExportSecchiJoined row loop for one row: a row with a
null creation datetime is skipped, otherwise the guard entry, the insert
query fragments and the preview clause of the row are accumulated. -/
def secchiStep (acc : SecchiAcc) (row : SecchiRow) : SecchiAcc :=
  match row.CreationDateTimeLocal with
  | none => acc
  | some dt =>
    let PondName := row.LakeNum
    let SampleDate := GetDateTime dt "d"
    let SecchiDepth := secchiDepthLit row
    let SecchiOnBottom := if row.OnBottom = "Yes" then "1" else "0"
    let SecchiNotes := pyStrip row.Comments
    let LakeExists := "EXISTS (SELECT PondName FROM tblPonds WHERE Pondname = \x27" ++ PondName ++ "\x27) And \n"
    let lakeEntry := if acc.LakeExistQueries.length > 0 then "    " ++ LakeExists else "IF " ++ LakeExists
    let SelectQuery := "SELECT  PONDNAME, SAMPLEDATE, SECCHIDEPTH, SECCHIONBOTTOM, SECCHINOTES FROM tblEvents WHERE Pondname = \x27" ++ PondName ++ "\x27 And SampleDate = \x27" ++ SampleDate ++ "\x27"
    let CommentStrU := if SecchiNotes = "" then "SECCHINOTES = NULL" else "SECCHINOTES = \x27" ++ SecchiNotes ++ "\x27"
    let CommentStrI := if SecchiNotes = "" then ",NULL);\n\n" else ",\x27" ++ SecchiNotes ++ "\x27);\n\n"
    let inserts :=
      acc.InsertQueries
      ++ ["       \x2d- Ensure the Event for these data edits exists.\n"]
      ++ ["       IF EXISTS (" ++ SelectQuery ++ ")\n"]
      ++ ["               \x2d- The event exists, update it.\n"]
      ++ ["               UPDATE tblEvents SET SECCHIDEPTH = " ++ SecchiDepth ++ ", SECCHIONBOTTOM = " ++ SecchiOnBottom ++ ", "]
      ++ [CommentStrU ++ " WHERE Pondname = \x27" ++ PondName ++ "\x27 And SampleDate = \x27" ++ SampleDate ++ "\x27\n\n"]
      ++ ["               \x2d- The event does not exist. If you want to insert it then uncomment the INSERT query below and execute.\n"]
      ++ ["               \x2d- INSERT INTO tblEvents(PONDNAME,SAMPLEDATE,SECCHIDEPTH,SECCHIONBOTTOM,SECCHINOTES) VALUES(\x27" ++ PondName ++ "\x27,\x27" ++ SampleDate ++ "\x27," ++ SecchiDepth ++ "," ++ SecchiOnBottom ++ CommentStrI]
      ++ ["               \x2d- Utility SELECT query in case you want to manually see the event. Uncomment and execute.\n"]
      ++ ["               \x2d- " ++ SelectQuery ++ "\n\n"]
      ++ ["       ELSE\n"]
      ++ ["           PRINT \x27The event for this record does not exist. PondName:" ++ PondName ++ " SampleDate: " ++ SampleDate ++ "\x27\n\n"]
    ⟨acc.LakeExistQueries ++ [lakeEntry], inserts,
     acc.PreviewQuery ++ "\x2d- (Pondname = \x27" ++ PondName ++ "\x27 And SampleDate = \x27" ++ SampleDate ++ "\x27) Or \n"⟩

/-- The ExportSecchiJoined row loop over all rows of the feature class. -/
def secchiLoop (rows : List SecchiRow) : SecchiAcc := rows.foldl secchiStep secchiInit

/-- Number of valid (non-null creation datetime) Secchi rows. -/
def secchiValidCount (rows : List SecchiRow) : Nat :=
  (rows.filter (fun r => r.CreationDateTimeLocal.isSome)).length

/-- The lake existence guard section as written by ExportSecchiJoined:
the comment plus the joined guard list, with the last 6 characters
removed, followed by the BEGIN line. -/
def secchiLakeExistSection (rows : List SecchiRow) : String :=
  pyDropRight (LakeExistQueriesComments ++ pyJoin (secchiLoop rows).LakeExistQueries) 6 ++ "\nBEGIN\n"

/-- The preview query as written by ExportSecchiJoined: the accumulated
preview with the last 4 characters removed. -/
def secchiPreviewTrimmed (rows : List SecchiRow) : String :=
  pyDropRight (secchiLoop rows).PreviewQuery 4

/-- The SQL text ExportSecchiJoined writes after the provenance header. -/
def secchiText (rows : List SecchiRow) : String :=
  let acc := secchiLoop rows
  "\x2f*\nREAD AND THOROUGHLY UNDERSTAND THIS SCRIPT BEFORE RUNNING.\nRunning this script may change records in the Shallow Lakes monitoring database.\nThe lakes referenced in this script must exist in the tblPonds table prior to running this script. \nSecchi depth data is stored in tblEvents. \nOn error, rollback and correct any problems, then run again. Commit changes when finished.\n*\x2f\n\n"
  ++ "USE AK_ShallowLakes\n\n"
  ++ "\x2d- PREVIEW OF AFFECTED RECORDS: To see the secchi depth values that may be affected uncomment and run the query below:\n"
  ++ "\x2d- " ++ pyDropRight acc.PreviewQuery 4 ++ "\n\n"
  ++ "BEGIN TRANSACTION \x2d- COMMIT ROLLBACK \x2d- All queries in this transaction must succeed or fail together. COMMIT if all queries succeed. ROLLBACK if any fail. Failure to COMMIT or ROLLBACK will leave the database in a hanging state.\n\n"
  ++ pyDropRight (LakeExistQueriesComments ++ pyJoin acc.LakeExistQueries) 6 ++ "\nBEGIN\n"
  ++ pyJoin acc.InsertQueries
  ++ "END\n"
  ++ "ELSE\n"
  ++ "    PRINT \x27ERROR: One or more lakes are missing from tblPonds. All lakes in the insert query block must exist in tblPonds before sampling events can be created in the tblEvents table.\x27\n"

/-- ExportSecchiJoined body as a fallible computation (its loop and
assembly raise no errors in this model, so it always succeeds). -/
def secchiBody (rows : List SecchiRow) : Except String String :=
  Except.ok (secchiText rows)

/-- Row of the Depth_Joined feature class, with the fields read by
ExportDepthJoined. -/
structure DepthRow where
  CreationDateTimeLocal : Option PyDateTime
  LakeNum : String
  YCurrentMapCS : Dec
  XCurrentMapCS : Dec
  Depth_in_meters : Dec
  Comment : String
  Datafile : String
deriving DecidableEq, Repr

/-- Accumulators of the ExportDepthJoined row loop. -/
structure DepthAcc where
  InsertQueries : String
  EventExistsQuery : String
  ValidateQuery : String
deriving DecidableEq, Repr

/-- First half of the depth insert query (SqlPrefix variable). -/
def depthSqlIns : String :=
  "INSERT INTO tblPondDepths(PONDNAME,SAMPLEDATE,GPS_TIME,LATITUDE,LONGITUDE,DEPTH,COMMENTS_DEPTHS,DATAFILE,SOURCE) VALUES("

/-- Initial value of the depth event existence accumulator. -/
def depthEventExistsHeader : String :=
  "\x2d- Determine if all the necessary parent Event records exist before trying to insert\nIF\n"

/-- Initial value of the depth validation accumulator. -/
def depthValidateHeader : String :=
  "SELECT PONDNAME,SAMPLEDATE,GPS_TIME,LATITUDE,LONGITUDE,DEPTH,COMMENTS_DEPTHS,DATAFILE,SOURCE FROM tblPondDepths WHERE\n"

/-- Initial accumulator state of ExportDepthJoined. -/
def depthInit : DepthAcc := ⟨"", depthEventExistsHeader, depthValidateHeader⟩

/-- Latitude literal of a depth row: str(round(y, 6)). -/
def depthLatitude (row : DepthRow) : String := pyStr (pyRound row.YCurrentMapCS 6)

/-- Longitude literal of a depth row: str(round(x, 6)). -/
def depthLongitude (row : DepthRow) : String := pyStr (pyRound row.XCurrentMapCS 6)

/-- Depth literal of a depth row: str(round(depth, 1)). -/
def depthDepthLit (row : DepthRow) : String := pyStr (pyRound row.Depth_in_meters 1)

/-- Body of the ExportDepthJoined row loop for one row. -/
def depthStep (sourceFileName : String) (acc : DepthAcc) (row : DepthRow) : DepthAcc :=
  match row.CreationDateTimeLocal with
  | none => acc
  | some dt =>
    let PondName := row.LakeNum
    let SampleDate := GetDateTime dt "d"
    let GPS_Time := GetDateTime dt "t"
    let Latitude := depthLatitude row
    let Longitude := depthLongitude row
    let Depth := depthDepthLit row
    let CommentsDepths := pyStrip row.Comment
    let DataFile := row.Datafile
    let CommentStr := if CommentsDepths = "" then ",NULL,\x27" else ",\x27" ++ CommentsDepths ++ "\x27,\x27"
    ⟨acc.InsertQueries ++ "      " ++ depthSqlIns ++ "\x27" ++ PondName ++ "\x27,\x27" ++ SampleDate ++ "\x27,\x27" ++ GPS_Time ++ "\x27," ++ Latitude ++ "," ++ Longitude ++ "," ++ Depth ++ CommentStr ++ DataFile ++ "\x27,\x27" ++ sourceFileName ++ "\x27);\n",
     acc.EventExistsQuery ++ " EXISTS  (SELECT PONDNAME FROM tblEvents WHERE Pondname=\x27" ++ PondName ++ "\x27 And SampleDate = \x27" ++ SampleDate ++ "\x27) And \n ",
     acc.ValidateQuery ++ "   \x2d- (PondName=\x27" ++ PondName ++ "\x27 and  SampleDate = \x27" ++ SampleDate ++ "\x27) Or\n"⟩

/-- The ExportDepthJoined row loop over all rows of the feature class. -/
def depthLoop (sourceFileName : String) (rows : List DepthRow) : DepthAcc :=
  rows.foldl (depthStep sourceFileName) depthInit

/-- The SQL text ExportDepthJoined writes after the provenance header. -/
def depthText (sourceFileName : String) (rows : List DepthRow) : String :=
  let acc := depthLoop sourceFileName rows
  "BEGIN TRANSACTION \x2d- COMMIT ROLLBACK\n\n"
  ++ (pyDropRight acc.EventExistsQuery 6 ++ "\n") ++ "\n    BEGIN\n    \x2d- Insert the records\n"
  ++ acc.InsertQueries
  ++ "   END\n"
  ++ "ELSE\n   Print \x27One or more parent Event records related to the record you are trying to insert does not exist.\x27\n\n"
  ++ "\x2d- Execute the query below to validate the inserted records.\n\x2d- " ++ pyDropRight acc.ValidateQuery 3

/-- ExportDepthJoined body as a fallible computation (its loop and
assembly raise no errors in this model, so it always succeeds). -/
def depthBody (sourceFileName : String) (rows : List DepthRow) : Except String String :=
  Except.ok (depthText sourceFileName rows)

/-- Row of the Loons_Joined feature class, with the fields read by
ExportLoonsJoined. -/
structure LoonRow where
  CreationDateTimeLocal : Option PyDateTime
  LakeNum : String
  Loon_Species : String
  a___of_Adults : Option Int
  a___of_Young : Option Int
  On_Water_ : Option String
  Identification_Method : String
  YCurrentMapCS : Dec
  XCurrentMapCS : Dec
  Loon_Comments : String
deriving DecidableEq, Repr

/-- Loop state of ExportLoonsJoined. VegType models the Python local
variable of the same name: it is only assigned when OnWater equals
"Yes", so on other rows it retains the value from a previous iteration,
and is unbound (none) if no previous row assigned it. -/
structure LoonState where
  EventExistsQuery : String
  RecordExistsQuery : String
  ValidateQuery : String
  InsertQueries : String
  i : Nat
  VegType : Option String
deriving DecidableEq, Repr

/-- Message of the NameError raised when VegType is read unassigned. -/
def nameErrVegType : String := "NameError: name VegType is not defined"

/-- Resolution of the VegType variable for one row: assigned "WATER"
when the stringified OnWater value equals "Yes"; otherwise it keeps its
previous binding. The source's elif branch testing OnWater is None is
dead code, because OnWater = str(...) is never None. -/
def loonVegType (carry : Option String) (onWater : String) : Option String :=
  if onWater = "Yes" then some "WATER" else carry

/-- Latitude literal of a loon row: str(round(y, 6)). -/
def loonLatitude (row : LoonRow) : String := pyStr (pyRound row.YCurrentMapCS 6)

/-- Longitude literal of a loon row: str(round(x, 6)). -/
def loonLongitude (row : LoonRow) : String := pyStr (pyRound row.XCurrentMapCS 6)

/-- Initial loop state of ExportLoonsJoined. The first assignment to
RecordExistsQuery (a comment line) is immediately overwritten by the
second, so the effective initial value is the IF head. -/
def loonInit : LoonState :=
  ⟨"\x2d- Determine if all the necessary parent Event records exist before trying to insert\nIF\n",
   "        IF ",
   "SELECT * FROM tblLoons WHERE\n",
   "", 0, none⟩

/-- Body of the ExportLoonsJoined row loop for one row. Reading VegType
while unassigned raises a NameError, which aborts the export. -/
def loonStep (sourceFileName : String) (st : LoonState) (row : LoonRow) : Except String LoonState :=
  match row.CreationDateTimeLocal with
  | none => Except.ok st
  | some dt =>
    let PondName := row.LakeNum
    let SampleDate := GetDateTime dt "d"
    let Species := row.Loon_Species
    let NumAdults := pyStrInt row.a___of_Adults
    let NumYoung := pyStrInt row.a___of_Young
    let OnWater := pyStrOpt row.On_Water_
    let vegNow := loonVegType st.VegType OnWater
    let DetectionType := row.Identification_Method
    let Latitude := loonLatitude row
    let Longitude := loonLongitude row
    let Comments := pyStrip row.Loon_Comments
    let Source := sourceFileName
    match vegNow with
    | none => Except.error nameErrVegType
    | some VegType =>
      let CommentStr := if Comments = "" then ",NULL,\x27" else ",\x27" ++ Comments ++ "\x27,\x27"
      let VegTypeStr := if VegType = "" then ",NULL," else ",\x27" ++ VegType ++ "\x27,"
      Except.ok
        ⟨st.EventExistsQuery ++ "    EXISTS  (SELECT PONDNAME FROM tblEvents WHERE Pondname=\x27" ++ PondName ++ "\x27 And SampleDate = \x27" ++ SampleDate ++ "\x27) And \n",
         st.RecordExistsQuery ++ " NOT EXISTS (SELECT * FROM tblLoons WHERE Pondname=\x27" ++ PondName ++ "\x27 And SampleDate = \x27" ++ SampleDate ++ "\x27) And \n",
         st.ValidateQuery ++ "   \x2d- (PondName=\x27" ++ PondName ++ "\x27 and SampleDate = \x27" ++ SampleDate ++ "\x27) Or\n",
         st.InsertQueries ++ "                INSERT INTO tblLoons(PONDNAME,SAMPLEDATE,SPECIES,NUM_ADULTS,NUM_YOUNG,DETECTION_TYPE,VEG_TYPE,LATITUDE,LONGITUDE,COMMENTS,SOURCE) VALUES(\x27" ++ PondName ++ "\x27,\x27" ++ SampleDate ++ "\x27,\x27" ++ Species ++ "\x27," ++ NumAdults ++ "," ++ NumYoung ++ ",\x27" ++ DetectionType ++ "\x27" ++ VegTypeStr ++ Latitude ++ "," ++ Longitude ++ CommentStr ++ Source ++ "\x27);\n",
         st.i + 1,
         some VegType⟩

/-- The ExportLoonsJoined row loop over all rows of the feature class. -/
def loonLoop (sourceFileName : String) (rows : List LoonRow) : Except String LoonState :=
  rows.foldlM (loonStep sourceFileName) loonInit

/-- The SQL text ExportLoonsJoined writes after the provenance header. -/
def loonText (st : LoonState) : String :=
  "USE AK_ShallowLakes\n\n"
  ++ "\x2d- Execute the query below to view/validate records that may be altered.\n\x2d- " ++ pyDropRight st.ValidateQuery 3 ++ "\n\n"
  ++ (pyDropRight st.EventExistsQuery 6 ++ "\n") ++ "    BEGIN\n"
  ++ "        PRINT \x27The required parent Event records exist in tblEvents.\x27\n"
  ++ "    " ++ pyDropRight st.RecordExistsQuery 6 ++ "\n\n"
  ++ "            BEGIN\n"
  ++ "           \x2d- Danger zone below. ROLLBACK on error.\n"
  ++ "           \x2d- Insert the records\n"
  ++ "                PRINT \x27inserts\x27\n"
  ++ "                BEGIN TRANSACTION \x2d- COMMIT ROLLBACK\n"
  ++ st.InsertQueries
  ++ "               PRINT \x27" ++ toString st.i ++ " records inserted from Loons_Joined into database table tblLoons.\x27\n"
  ++ "               PRINT \x27DO NOT FORGET TO COMMIT OR ROLLBACK OR THE DATABASE WILL BE LEFT IN A HANGING STATE!!!!\x27\n"
  ++ "            END\n"
  ++ "        ELSE\n"
  ++ "            PRINT \x27One or more records exist already. Uncomment and use the validation query above to help determine which Loons_Joined\\tblLoons records exist already.\x27\n"
  ++ "    END\n"
  ++ "ELSE\n    PRINT \x27One or more parent Event records (tblEvents) related to the record you are trying to insert does not exist.\x27\n\n"

/-- ExportLoonsJoined body as a fallible computation. -/
def loonBody (sourceFileName : String) (rows : List LoonRow) : Except String String :=
  (loonLoop sourceFileName rows).map loonText

/-- Row of the Water_Sample_Joined feature class, with the fields read
by ExportWaterSampleJoined. -/
structure WaterSampleRow where
  CreationDateTimeLocal : Option PyDateTime
  LakeNum : String
  Sample_Number__A__B__C_ : Option String
  Depth_in_meters : Option Dec
  Comment : String
  Water_Bottles_Collected_ : String
deriving DecidableEq, Repr

/-- The five collection flag variables, always assigned together. -/
structure WSFlags where
  O18_Coll : String
  SI_DOC_Coll : String
  IONS_Coll : String
  TN_TP_Coll : String
  CHLA_Coll : String
deriving DecidableEq, Repr

/-- The five collection flags set uniformly to one value. -/
def wsFlagsOf (v : String) : WSFlags := ⟨v, v, v, v, v⟩

/-- Loop state of ExportWaterSampleJoined. The flags component models
the five Python locals O18_Coll .. CHLA_Coll: they are assigned only
when the stripped Water_Bottles_Collected_ value is "No" or "Yes", so
on other rows they retain previous values, and are unbound (none) if no
previous row assigned them. -/
structure WSState where
  InsertWaterSamplesQueries : String
  EventExistsQuery : String
  ValidateQuery : String
  flags : Option WSFlags
deriving DecidableEq, Repr

/-- Message of the NameError raised when O18_Coll is read unassigned. -/
def nameErrO18 : String := "NameError: name O18_Coll is not defined"

/-- Initial loop state of ExportWaterSampleJoined. -/
def wsInit : WSState :=
  ⟨"",
   "\x2d- Determine if all the necessary parent Event records exist before trying to insert\nIF\n",
   "SELECT * FROM tblWaterSamples WHERE\n",
   none⟩

/-- Sample number of a water sample row: the uppercased str of the
field, defaulted to "A" when blank after stripping. -/
def wsSampleNumber (row : WaterSampleRow) : String :=
  let s := pyUpper (pyStrOpt row.Sample_Number__A__B__C_)
  if pyStrip s = "" then "A" else s

/-- Depth literal of a water sample row: str of the raw value (no
rounding), null becomes SQL NULL. -/
def wsDepthLit (row : WaterSampleRow) : String :=
  match row.Depth_in_meters with
  | some d => pyStr d
  | none => "NULL"

/-- Body of the ExportWaterSampleJoined row loop for one row. Reading an
unassigned collection flag raises a NameError, which aborts the export. -/
def wsStep (st : WSState) (row : WaterSampleRow) : Except String WSState :=
  match row.CreationDateTimeLocal with
  | none => Except.ok st
  | some dt =>
    let PondName := row.LakeNum
    let SampleDate := GetDateTime dt "d"
    let SampleNumber := wsSampleNumber row
    let SampleTime := GetDateTime dt "t"
    let Depth := wsDepthLit row
    let SampleDepth := "0.5"
    let Notes := pyStrip row.Comment
    let WaterBottlesCollected := pyStrip row.Water_Bottles_Collected_
    let flagsNow :=
      if WaterBottlesCollected = "No" then some (wsFlagsOf "0")
      else if WaterBottlesCollected = "Yes" then some (wsFlagsOf "1")
      else st.flags
    let ValidateQuery := st.ValidateQuery ++ "   \x2d- (PondName=\x27" ++ PondName ++ "\x27 and  SampleDate = \x27" ++ SampleDate ++ "\x27 and SampleNumber = \x27" ++ SampleNumber ++ "\x27) Or\n"
    let EventExistsQuery := st.EventExistsQuery ++ " EXISTS  (SELECT PONDNAME FROM tblEvents WHERE Pondname=\x27" ++ PondName ++ "\x27 And SampleDate = \x27" ++ SampleDate ++ "\x27) And \n "
    match flagsNow with
    | none => Except.error nameErrO18
    | some f =>
      let CommentStr := if Notes = "" then ",NULL" else ",\x27" ++ Notes ++ "\x27"
      Except.ok
        ⟨st.InsertWaterSamplesQueries ++ "INSERT INTO tblWaterSamples([PONDNAME],[SAMPLEDATE],[SAMPLENUMBER],[SAMPLETIME],[SAMPLEDEPTH],[DEPTH],[O18_COLL],[SI_DOC_COLL],[IONS_COLL],[TN_TP_COLL],[CHLA_COLL],[Notes]) VALUES(\x27" ++ PondName ++ "\x27,\x27" ++ SampleDate ++ "\x27,\x27" ++ SampleNumber ++ "\x27,\x27" ++ SampleTime ++ "\x27," ++ SampleDepth ++ "," ++ Depth ++ "," ++ f.O18_Coll ++ "," ++ f.SI_DOC_Coll ++ "," ++ f.IONS_Coll ++ "," ++ f.TN_TP_Coll ++ "," ++ f.CHLA_Coll ++ CommentStr ++ ")\n",
         EventExistsQuery, ValidateQuery, flagsNow⟩

/-- The ExportWaterSampleJoined row loop over all rows of the class. -/
def wsLoop (rows : List WaterSampleRow) : Except String WSState :=
  rows.foldlM wsStep wsInit

/-- The SQL text ExportWaterSampleJoined writes after the header. -/
def wsText (st : WSState) : String :=
  "BEGIN TRANSACTION \x2d- COMMIT ROLLBACK\n\n"
  ++ (pyDropRight st.EventExistsQuery 6 ++ "\n") ++ "\n    BEGIN\n    \x2d- Insert the records\n\n"
  ++ "\x2d- Insert the water samples first\n"
  ++ st.InsertWaterSamplesQueries
  ++ "   END\n"
  ++ "ELSE\n   Print \x27One or more parent Event records related to the record you are trying to insert does not exist.\x27\n\n"
  ++ "\x2d- Execute the query below to validate the inserted records.\n\x2d- " ++ pyDropRight st.ValidateQuery 3

/-- ExportWaterSampleJoined body as a fallible computation. -/
def wsBody (rows : List WaterSampleRow) : Except String String :=
  (wsLoop rows).map wsText

/-- Primary key of a water sample row, as computed by
TestTrimbleGeoDB.GetPrimaryKeys for Water_Sample_Joined: null creation
datetime rows produce no key; a blank sample number defaults to "A";
the concatenated key is uppercased. -/
def wsPrimaryKey (row : WaterSampleRow) : Option String :=
  match row.CreationDateTimeLocal with
  | none => none
  | some dt =>
    let PondName := row.LakeNum
    let SampleDate := GetDateTime dt "d"
    let s := pyStrOpt row.Sample_Number__A__B__C_
    let SampleNumber := if pyStrip s = "" then "A" else s
    some (pyUpper (PondName ++ SampleDate ++ SampleNumber))

/-- Row of the Monument feature class, with the fields read by
ExportMonumentJoined. -/
structure MonumentRow where
  CreationDateTimeLocal : Option PyDateTime
  LakeNum : String
  YCurrentMapCS : Dec
  XCurrentMapCS : Dec
  FeatureHeight : Option Dec
  MonType : String
  Location : String
  Comment : String
  AccessType : String
  DeviceType : String
  CorrStatus : String
  HorizEstAcc : Option Dec
  VertEstAcc : Option Dec
deriving DecidableEq, Repr

/-- Latitude literal of a monument row: str(round(y, 6)). -/
def monumentLatitude (row : MonumentRow) : String := pyStr (pyRound row.YCurrentMapCS 6)

/-- Longitude literal of a monument row: str(round(x, 6)). -/
def monumentLongitude (row : MonumentRow) : String := pyStr (pyRound row.XCurrentMapCS 6)

/-- Insert statement of one monument row. ExportMonumentJoined has no
null-creation-datetime skip: a null datetime reaches GetDateTime and
raises an AttributeError, aborting the export. -/
def monumentRowSql (row : MonumentRow) : Except String String :=
  match row.CreationDateTimeLocal with
  | none => Except.error attrErrNone
  | some dt =>
    let PondName := row.LakeNum
    let MonumentDate := GetDateTime dt "d"
    let LatitudeNAD83 := monumentLatitude row
    let LongitudeNAD83 := monumentLongitude row
    let Elevation := pyStrOptDec row.FeatureHeight
    let LocType := row.MonType
    let LocMaterial := row.MonType
    let LocNotesStr := if pyStrip row.Location = "" then ",NULL" else ",\x27" ++ row.Location ++ "\x27"
    let LocCommentsStr := if pyStrip row.Comment = "" then ",NULL" else ",\x27" ++ row.Comment ++ "\x27"
    let GPSTime := GetDateTime dt "t"
    let EstHError := pyStrOptDec row.HorizEstAcc
    let EstVError := pyStrOptDec row.VertEstAcc
    Except.ok
      ("        INSERT INTO tblMonuments ([PONDNAME], [M_DATE], [M_LAT_NAD83], [M_LON_NAD83], [M_ELEVATION], [M_LOC_TYPE], [M_LOC_MATERIAL], [M_LOC_NOTES], [M_LOC_COMMENTS], [M_ACCESSTYPE], [M_GPSTYPE], [M_GPSTIME], [M_CORR_TYPE], [M_EST_H_ERROR], [M_EST_V_ERROR]) VALUES (\x27"
       ++ PondName ++ "\x27,\x27" ++ MonumentDate ++ "\x27," ++ LatitudeNAD83 ++ "," ++ LongitudeNAD83 ++ "," ++ Elevation ++ ",\x27" ++ LocType
       ++ "\x27,\x27" ++ LocMaterial ++ "\x27" ++ LocNotesStr ++ LocCommentsStr ++ ",\x27" ++ row.AccessType ++ "\x27,\x27" ++ row.DeviceType ++ "\x27,\x27" ++ GPSTime
       ++ "\x27,\x27" ++ row.CorrStatus ++ "\x27," ++ EstHError ++ "," ++ EstVError ++ ")\n")

/-- The ExportMonumentJoined row loop: accumulated insert statements. -/
def monumentLoop (rows : List MonumentRow) : Except String String :=
  rows.foldlM (fun acc row => (monumentRowSql row).map (fun c => acc ++ c)) ""

/-- WrapSQLStatementsInTransaction: the literal T-SQL try/catch shell. -/
def WrapSQLStatementsInTransaction (SQLStatements : String) : String :=
  "BEGIN TRY\n"
  ++ "    BEGIN TRANSACTION\n\n"
  ++ SQLStatements
  ++ "\n     COMMIT TRANSACTION\n"
  ++ "     PRINT N\x27Successfully inserted ALL records and committed them.\x27\n"
  ++ "END TRY\n"
  ++ "BEGIN CATCH \x2d- ROLLBACK\n"
  ++ "    IF @@TRANCOUNT > 0\n"
  ++ "    BEGIN\n"
  ++ "        DECLARE @error_msg NVARCHAR(MAX)\n"
  ++ "        SELECT @error_msg = ERROR_MESSAGE()\n"
  ++ "        PRINT N\x27Error: \x27 + @error_msg + char(13) + char(10) + char(13) + char(10)\n"
  ++ "        ROLLBACK TRANSACTION\n"
  ++ "        PRINT N\x27Rolling back transaction; NO records have been inserted.\x27\n"
  ++ "    END\n"
  ++ "END CATCH\n\n"

/-- ExportMonumentJoined body as a fallible computation. -/
def monumentBody (rows : List MonumentRow) : Except String String :=
  (monumentLoop rows).map WrapSQLStatementsInTransaction

/-- The Continuous enumeration of TrimbleGeoDBToDatabase. -/
inductive Continuous where
  | DEPLOYMENT_INSERT
  | DEPLOYMENT_UPDATE
  | RETRIEVAL_UPDATE
deriving DecidableEq, Repr

/-- Row of the Deployment_Joined or Retrieval_Joined feature class, with
the fields read by ExportContinuousJoined. -/
structure ContinuousRow where
  CreationDateTimeLocal : Option PyDateTime
  LakeNum : String
  Deployment_Type : Option String
  YCurrentMapCS : Dec
  XCurrentMapCS : Dec
  Comments : String
deriving DecidableEq, Repr

/-- Python dict insertion: replace the value of an existing key, else
append the pair (so iteration order is insertion order, and a repeated
key keeps its first position with the last value). -/
def dictInsert (d : List (String × String)) (k v : String) : List (String × String) :=
  if d.any (fun p => p.1 == k) then d.map (fun p => if p.1 == k then (k, v) else p)
  else d ++ [(k, v)]

/-- CSVDictToKeyedDict: build the SiteName to DateDeployed mapping from
the CSV rows; a duplicated SiteName silently keeps the last value. -/
def CSVDictToKeyedDict (csvRows : List (String × String)) : List (String × String) :=
  csvRows.foldl (fun d r => dictInsert d r.1 r.2) []

/-- Python `k in d` on the keyed dictionary. -/
def dictHasKey (d : List (String × String)) (k : String) : Bool :=
  d.any (fun p => p.1 == k)

/-- Python `d[k]` on the keyed dictionary (none models the KeyError,
which the source never reaches because lookups are membership-guarded). -/
def dictLookup (d : List (String × String)) (k : String) : Option String :=
  (d.find? (fun p => p.1 == k)).map Prod.snd

/-- Deployment-insert latitude literal: str of the raw value, unrounded. -/
def deployInsertLatitude (row : ContinuousRow) : String := pyStr row.YCurrentMapCS

/-- Deployment-insert longitude literal: str of the raw value, unrounded. -/
def deployInsertLongitude (row : ContinuousRow) : String := pyStr row.XCurrentMapCS

/-- Update-mode latitude literal: str(round(y, 6)). -/
def updateLatitude (row : ContinuousRow) : String := pyStr (pyRound row.YCurrentMapCS 6)

/-- Update-mode longitude literal: str(round(x, 6)). -/
def updateLongitude (row : ContinuousRow) : String := pyStr (pyRound row.XCurrentMapCS 6)

/-- Statement contribution of one Deployment/Retrieval row: none when
the row is skipped (date outside the range, or site name not in the
cross-reference map in the update modes), some chunk when a statement is
emitted. A null creation datetime raises an AttributeError where the
source reaches GetDateTime. -/
def continuousRowSql (ContinuousType : Continuous) (fromDate toDate : String)
    (mapDeployment : List (String × String)) (KeepUpdateNotes : Bool)
    (row : ContinuousRow) : Except String (Option String) :=
  let SiteName := row.LakeNum
  match ContinuousType with
  | Continuous.DEPLOYMENT_INSERT =>
    match row.CreationDateTimeLocal with
    | none => Except.error attrErrNone
    | some dt =>
      let DateDeployed := GetDateTime dt "d"
      if pyLe fromDate DateDeployed && pyLe DateDeployed toDate then
        let TimeDeployed := GetDateTime dt "t"
        let DeployLatitude := deployInsertLatitude row
        let DeployLongitude := deployInsertLongitude row
        let DeploymentNotes := row.Comments
        let DeploymentNotesStr := if pyStrip DeploymentNotes = "" then ", NULL" else ", \x27" ++ DeploymentNotes ++ "\x27"
        let DeploymentTypeStr :=
          match row.Deployment_Type with
          | none => ", NULL"
          | some t => ", \x27" ++ t ++ "\x27"
        Except.ok (some
          ("INSERT INTO dbo.tblContinuousDataDeployments\n"
           ++ "([SiteName] ,[DateDeployed] ,[TimeDeployed] ,[DeploymentType] ,[DeployLatitude] ,[DeployLongitude] ,[DeploymentNotes])\n"
           ++ "VALUES (" ++ "\x27" ++ SiteName ++ "\x27, \x27" ++ DateDeployed ++ "\x27, \x27" ++ TimeDeployed ++ "\x27" ++ DeploymentTypeStr ++ ", " ++ DeployLatitude ++ ", " ++ DeployLongitude ++ DeploymentNotesStr ++ ")\n\n"))
      else Except.ok none
  | Continuous.DEPLOYMENT_UPDATE =>
    if dictHasKey mapDeployment SiteName then
      match row.CreationDateTimeLocal with
      | none => Except.error attrErrNone
      | some dt =>
        let DateDeployedRow := GetDateTime dt "d"
        if pyLe fromDate DateDeployedRow && pyLe DateDeployedRow toDate then
          let DeployLatitude := updateLatitude row
          let DeployLongitude := updateLongitude row
          let DeploymentNotes := row.Comments
          match dictLookup mapDeployment SiteName with
          | none => Except.error "KeyError"
          | some DateDeployed =>
            let DeploymentNotesStr := if pyStrip DeploymentNotes = "" then "NULL" else "\x27" ++ DeploymentNotes ++ "\x27"
            Except.ok (some
              ("UPDATE dbo.tblContinuousDataDeployments\n"
               ++ "SET [DeployLatitude] = " ++ DeployLatitude ++ ",\n"
               ++ (if KeepUpdateNotes then
                     "    [DeployLongitude] = " ++ DeployLongitude ++ ",\n"
                     ++ "    [DeploymentNotes] = " ++ DeploymentNotesStr ++ "\n"
                   else
                     "    [DeployLongitude] = " ++ DeployLongitude ++ "\n"
                     ++ "\x2d-  [DeploymentNotes] = " ++ DeploymentNotesStr ++ "\n")
               ++ ("WHERE SiteName = \x27" ++ SiteName ++ "\x27 AND DateDeployed = \x27" ++ DateDeployed ++ "\x27\n\n")))
        else Except.ok none
    else Except.ok none
  | Continuous.RETRIEVAL_UPDATE =>
    if dictHasKey mapDeployment SiteName then
      match row.CreationDateTimeLocal with
      | none => Except.error attrErrNone
      | some dt =>
        let DateRetrieved := GetDateTime dt "d"
        if pyLe fromDate DateRetrieved && pyLe DateRetrieved toDate then
          let TimeRetrieved := GetDateTime dt "t"
          let RetrieveLatitude := updateLatitude row
          let RetrieveLongitude := updateLongitude row
          let RetrievalNotes := row.Comments
          match dictLookup mapDeployment SiteName with
          | none => Except.error "KeyError"
          | some DateDeployed =>
            let RetrievalNotesStr := if pyStrip RetrievalNotes = "" then "NULL" else "\x27" ++ RetrievalNotes ++ "\x27"
            Except.ok (some
              ("UPDATE dbo.tblContinuousDataDeployments\n"
               ++ "SET [DateRetrieved] = \x27" ++ DateRetrieved ++ "\x27,\n"
               ++ "    [TimeRetrieved] = \x27" ++ TimeRetrieved ++ "\x27,\n"
               ++ "    [RetrieveLatitude] = " ++ RetrieveLatitude ++ ",\n"
               ++ (if KeepUpdateNotes then
                     "    [RetrieveLongitude] = " ++ RetrieveLongitude ++ ",\n"
                     ++ "    [RetrievalNotes] = " ++ RetrievalNotesStr ++ "\n"
                   else
                     "    [RetrieveLongitude] = " ++ RetrieveLongitude ++ "\n"
                     ++ "\x2d-  [RetrievalNotes] = " ++ RetrievalNotesStr ++ "\n")
               ++ ("WHERE SiteName = \x27" ++ SiteName ++ "\x27 AND DateDeployed = \x27" ++ DateDeployed ++ "\x27\n\n")))
        else Except.ok none
    else Except.ok none

/-- The ExportContinuousJoined row loop: accumulated SQL statements. -/
def continuousLoop (ContinuousType : Continuous) (fromDate toDate : String)
    (mapDeployment : List (String × String)) (KeepUpdateNotes : Bool)
    (rows : List ContinuousRow) : Except String String :=
  rows.foldlM
    (fun acc row => (continuousRowSql ContinuousType fromDate toDate mapDeployment KeepUpdateNotes row).map (fun c => acc ++ c.getD ""))
    ""

/-- ExportContinuousJoined body as a fallible computation (the written
text is the accumulated statements in the transaction shell). -/
def continuousBody (ContinuousType : Continuous) (fromDate toDate : String)
    (mapDeployment : List (String × String)) (KeepUpdateNotes : Bool)
    (rows : List ContinuousRow) : Except String String :=
  (continuousLoop ContinuousType fromDate toDate mapDeployment KeepUpdateNotes rows).map
    WrapSQLStatementsInTransaction

/-- Input of one batch run of all six exports, as the example driver
scripts invoke them in sequence. -/
structure BatchInput where
  sourceFileName : String
  secchiRows : List SecchiRow
  depthRows : List DepthRow
  loonRows : List LoonRow
  waterRows : List WaterSampleRow
  monumentRows : List MonumentRow
  continuousMode : Continuous
  fromDate : String
  toDate : String
  deployedCSV : List (String × String)
  keepNotes : Bool
  continuousRows : List ContinuousRow

/-- Outcome of one export function: it either finishes, returning
normally with the SQL it wrote, or reports a caught error as an
operator-visible diagnostic message and still returns normally. -/
inductive Outcome where
  | finished (sql : String)
  | reported (msg : String)
deriving DecidableEq, Repr

/-- The try/except wrapper shared by all six export functions: an error
raised by the body is caught and reported with the per-function message
head; it never propagates to the caller. -/
def handleExport (errHead : String) (body : Except String String) : Outcome :=
  match body with
  | Except.ok s => Outcome.finished s
  | Except.error e => Outcome.reported (errHead ++ e)

/-- The six export bodies of a batch with their diagnostic message
heads, in driver order. (ExportLoonsJoined builds its message without a
space after the colon, as in the source.) -/
def exportsOf (inp : BatchInput) : List (String × Except String String) :=
  [("Error in function ExportSecchiJoined: ", secchiBody inp.secchiRows),
   ("Error in function ExportDepthJoined: ", depthBody inp.sourceFileName inp.depthRows),
   ("Error in function ExportLoonsJoined:", loonBody inp.sourceFileName inp.loonRows),
   ("Error in function ExportWaterSampleJoined: ", wsBody inp.waterRows),
   ("Error in function ExportMonumentJoined: ", monumentBody inp.monumentRows),
   ("Error in function ExportContinuousJoined: ",
    continuousBody inp.continuousMode inp.fromDate inp.toDate (CSVDictToKeyedDict inp.deployedCSV) inp.keepNotes inp.continuousRows)]

/-- One batch run: every export is invoked through its try/except
wrapper, each producing an outcome independently of the others. -/
def runBatch (inp : BatchInput) : List Outcome :=
  (exportsOf inp).map (fun p => handleExport p.1 p.2)

/-- A sample datetime: 2023-09-10 08:30:00. -/
def dt0 : PyDateTime := ⟨2023, 9, 10, 8, 30, 0⟩

/-- The Secchi record of the end-to-end scenario: LakeNum P12, creation
datetime 2023-09-10T08:30:00, depth 2.34, OnBottom No, Comments two
spaces. -/
def secchiRowP12 : SecchiRow := ⟨some dt0, "P12", some ⟨234, 2⟩, "No", "  "⟩

/-- A Secchi record with a null creation datetime. -/
def secchiRowNull : SecchiRow := ⟨none, "P01", none, "No", ""⟩

/-- A depth record whose coordinates have one decimal digit. -/
def depthRow25 : DepthRow := ⟨some dt0, "P01", ⟨25, 1⟩, ⟨-1505, 1⟩, ⟨23, 1⟩, "", "file1"⟩

/-- A monument record with a null creation datetime. -/
def monumentRowNull : MonumentRow :=
  ⟨none, "P01", ⟨1, 0⟩, ⟨2, 0⟩, none, "rebar", "north shore", "", "boat", "Trimble", "PP", none, none⟩

/-- A loon record observed on water (OnWater = "Yes"). -/
def loonRowYes : LoonRow :=
  ⟨some dt0, "P01", "COLO", some 2, some 0, some "Yes", "Visual", ⟨1, 0⟩, ⟨2, 0⟩, ""⟩

/-- A loon record not on water (OnWater = "No"). -/
def loonRowNo : LoonRow :=
  ⟨some dt0, "P02", "COLO", some 1, some 1, some "No", "Visual", ⟨1, 0⟩, ⟨2, 0⟩, ""⟩

/-- A loon record with a null OnWater field. -/
def loonRowNone : LoonRow :=
  ⟨some dt0, "P03", "COLO", none, none, none, "Visual", ⟨1, 0⟩, ⟨2, 0⟩, ""⟩

/-- A water sample record whose sample number is two spaces and whose
depth value has three decimal digits. -/
def wsRowBlank : WaterSampleRow := ⟨some dt0, "P12", some "  ", some ⟨1234, 3⟩, "", "Yes"⟩

/-- A water sample record whose Water_Bottles_Collected_ value strips to
"Maybe", outside the recognized Yes/No values. -/
def wsRowMaybe : WaterSampleRow := ⟨some dt0, "P12", some "A", some ⟨5, 1⟩, "", "Maybe"⟩

/-- A deployment record dated 2023-09-12 whose latitude has seven
decimal digits. -/
def contRowL7 : ContinuousRow :=
  ⟨some ⟨2023, 9, 12, 10, 0, 0⟩, "L7", some "HOBO", ⟨11234567, 7⟩, ⟨-151, 0⟩, ""⟩

/-- A retrieval record for site L9 dated 2023-09-10. -/
def contRowL9 : ContinuousRow :=
  ⟨some dt0, "L9", none, ⟨1, 0⟩, ⟨2, 0⟩, ""⟩

/-- A continuous record with a null creation datetime. -/
def contRowNull : ContinuousRow :=
  ⟨none, "L1", none, ⟨1, 0⟩, ⟨2, 0⟩, ""⟩

/-- A batch input whose monument list holds one null-datetime record and
whose other feature classes are empty. -/
def batchInput0 : BatchInput :=
  ⟨"fake.gdb", [], [], [], [], [monumentRowNull],
   Continuous.DEPLOYMENT_INSERT, "2023-09-08", "2023-09-25", [], false, []⟩

theorem digitChar10_ne_dot (n : Nat) : (digitChar10 n != '.') = true := by
  unfold digitChar10
  repeat' split
  all_goals decide

theorem mem_padDigits_ne_dot : ∀ (e a : Nat), ∀ c ∈ padDigits a e, (c != '.') = true := by
  intro e
  induction e with
  | zero => intro a c hc; simp [padDigits] at hc
  | succ e ih =>
    intro a c hc
    simp only [padDigits, List.mem_append, List.mem_singleton] at hc
    rcases hc with h | h
    · exact ih _ _ h
    · subst h; exact digitChar10_ne_dot _

theorem padDigits_length : ∀ (e a : Nat), (padDigits a e).length = e := by
  intro e
  induction e with
  | zero => intro a; rfl
  | succ e ih => intro a; simp [padDigits, ih]

theorem takeWhile_ne_dot (l r : List Char) (h : ∀ c ∈ l, (c != '.') = true) :
    (l ++ '.' :: r).takeWhile (fun c => c != '.') = l := by
  induction l with
  | nil => simp [List.takeWhile]
  | cons a l ih =>
    have ha := h a (by simp)
    simp only [List.cons_append, List.takeWhile_cons, ha, if_true]
    rw [ih (fun c hc => h c (by simp [hc]))]

theorem fracLen_mk_dot (A F : List Char) (h : ∀ c ∈ F, (c != '.') = true) :
    fracLen (String.mk (A ++ ['.'] ++ F)) = F.length := by
  unfold fracLen
  show ((A ++ ['.'] ++ F).reverse.takeWhile (fun c => c != '.')).length = F.length
  have hrev : (A ++ ['.'] ++ F).reverse = F.reverse ++ '.' :: A.reverse := by
    simp [List.reverse_append]
  rw [hrev, takeWhile_ne_dot _ _ (fun c hc => h c (List.mem_reverse.mp hc))]
  exact List.length_reverse F

theorem fracLen_decCharsCore (m : Int) (e : Nat) :
    fracLen (String.mk (decCharsCore m e)) = max e 1 := by
  unfold decCharsCore
  cases e with
  | zero =>
    rw [if_pos rfl, fracLen_mk_dot]
    · rfl
    · intro c hc; simp only [List.mem_singleton] at hc; subst hc; decide
  | succ e =>
    rw [if_neg (Nat.succ_ne_zero e), fracLen_mk_dot]
    · rw [padDigits_length]
      exact (Nat.max_eq_left (Nat.succ_le_succ (Nat.zero_le e))).symm
    · exact mem_padDigits_ne_dot _ _

theorem fracLen_pyStr (x : Dec) : fracLen (pyStr x) = max (normTrim x.e x.m).2 1 := by
  unfold pyStr decChars
  exact fracLen_decCharsCore _ _

theorem normTrim_le : ∀ (e : Nat) (m : Int), (normTrim e m).2 ≤ e := by
  intro e
  induction e with
  | zero => intro m; exact Nat.le_refl 0
  | succ e ih =>
    intro m
    unfold normTrim
    split
    · exact Nat.le_trans (ih _) (Nat.le_succ e)
    · exact Nat.le_refl _

theorem pyRound_e_le (x : Dec) (n : Nat) : (pyRound x n).e ≤ n := by
  unfold pyRound
  split
  · assumption
  · exact Nat.le_refl n

theorem one_le_fracLen_pyStr (x : Dec) : 1 ≤ fracLen (pyStr x) := by
  rw [fracLen_pyStr]
  exact Nat.le_max_right _ 1

theorem fracLen_pyStr_round_le (x : Dec) (n : Nat) (h : 1 ≤ n) :
    fracLen (pyStr (pyRound x n)) ≤ n := by
  rw [fracLen_pyStr]
  exact Nat.max_le.mpr ⟨Nat.le_trans (normTrim_le _ _) (pyRound_e_le x n), h⟩

theorem fracLen_pyStr_round_one (x : Dec) : fracLen (pyStr (pyRound x 1)) = 1 := by
  rw [fracLen_pyStr]
  exact Nat.max_eq_right (Nat.le_trans (normTrim_le _ _) (pyRound_e_le x 1))

theorem strLeChars_refl : ∀ l : List Char, strLeChars l l = true := by
  intro l
  induction l with
  | nil => rfl
  | cons a l ih => simp [strLeChars, ih]

theorem pyLe_refl (s : String) : pyLe s s = true := strLeChars_refl s.data

theorem str_empty_append (a : String) : "" ++ a = a := by
  apply String.ext
  rw [String.data_append]
  rfl

theorem pyDropRight_append (a t : String) (n : Nat) (h : t.data.length = n) :
    pyDropRight (a ++ t) n = a := by
  unfold pyDropRight
  apply String.ext
  show ((a ++ t).data.take ((a ++ t).data.length - n)) = a.data
  rw [String.data_append, List.length_append, h, Nat.add_sub_cancel]
  exact List.take_left _ _

theorem foldl_str_append (l : List String) : ∀ b : String,
    l.foldl (fun x y => x ++ y) b = b ++ pyJoin l := by
  induction l with
  | nil => intro b; exact (String.append_empty b).symm
  | cons a l ih =>
    intro b
    show l.foldl (fun x y => x ++ y) (b ++ a) = b ++ pyJoin (a :: l)
    have hj : pyJoin (a :: l) = a ++ pyJoin l := by
      show l.foldl (fun x y => x ++ y) ("" ++ a) = a ++ pyJoin l
      rw [str_empty_append, ih a]
    rw [ih (b ++ a), hj, String.append_assoc]

theorem pyJoin_concat (l : List String) (a : String) :
    pyJoin (l ++ [a]) = pyJoin l ++ a := by
  unfold pyJoin
  rw [List.foldl_append]
  show pyJoin l ++ a = _
  rfl

theorem pyJoin_ends_tok (tok : String) (l : List String) (hne : l ≠ [])
    (h : ∀ q ∈ l, ∃ s, q = s ++ tok) : ∃ s, pyJoin l = s ++ tok := by
  rcases List.eq_nil_or_concat l with rfl | ⟨L, b, rfl⟩
  · exact absurd rfl hne
  · obtain ⟨s, hs⟩ := h b (by simp [List.concat_eq_append])
    refine ⟨pyJoin L ++ s, ?_⟩
    rw [List.concat_eq_append, pyJoin_concat, hs, String.append_assoc]

theorem pyUpper_append (s t : String) : pyUpper (s ++ t) = pyUpper s ++ pyUpper t := by
  apply String.ext
  show ((s ++ t).data.map Char.toUpper) = (pyUpper s ++ pyUpper t).data
  rw [String.data_append, String.data_append, List.map_append]
  rfl

theorem secchiStep_none (acc : SecchiAcc) (row : SecchiRow)
    (h : row.CreationDateTimeLocal = none) : secchiStep acc row = acc := by
  simp [secchiStep, h]

theorem depthStep_none (s : String) (acc : DepthAcc) (row : DepthRow)
    (h : row.CreationDateTimeLocal = none) : depthStep s acc row = acc := by
  simp [depthStep, h]

theorem loonStep_none (s : String) (st : LoonState) (row : LoonRow)
    (h : row.CreationDateTimeLocal = none) : loonStep s st row = Except.ok st := by
  simp [loonStep, h]

theorem wsStep_none (st : WSState) (row : WaterSampleRow)
    (h : row.CreationDateTimeLocal = none) : wsStep st row = Except.ok st := by
  simp [wsStep, h]

theorem monumentRowSql_none (row : MonumentRow)
    (h : row.CreationDateTimeLocal = none) : monumentRowSql row = Except.error attrErrNone := by
  simp [monumentRowSql, h]

theorem contInsert_none (fd td : String) (mp : List (String × String)) (k : Bool)
    (row : ContinuousRow) (h : row.CreationDateTimeLocal = none) :
    continuousRowSql Continuous.DEPLOYMENT_INSERT fd td mp k row = Except.error attrErrNone := by
  simp [continuousRowSql, h]

theorem secchiStep_some (acc : SecchiAcc) (row : SecchiRow) (dt : PyDateTime)
    (h : row.CreationDateTimeLocal = some dt) :
    ∃ en pv,
      (secchiStep acc row).LakeExistQueries = acc.LakeExistQueries ++ [en ++ " And \n"]
      ∧ (secchiStep acc row).PreviewQuery = acc.PreviewQuery ++ (pv ++ "Or \n") := by
  have hs1 : ("\x27) And \n" : String) = "\x27)" ++ " And \n" := rfl
  have hs2 : ("\x27) Or \n" : String) = "\x27) " ++ "Or \n" := rfl
  by_cases hc : acc.LakeExistQueries.length > 0
  · refine ⟨"    " ++ ("EXISTS (SELECT PondName FROM tblPonds WHERE Pondname = \x27" ++ row.LakeNum ++ "\x27)"),
            "\x2d- (Pondname = \x27" ++ row.LakeNum ++ "\x27 And SampleDate = \x27" ++ GetDateTime dt "d" ++ "\x27) ", ?_, ?_⟩
    · simp [secchiStep, h, hc, hs1, String.append_assoc]
    · simp [secchiStep, h, hc, hs2, String.append_assoc]
  · refine ⟨"IF " ++ ("EXISTS (SELECT PondName FROM tblPonds WHERE Pondname = \x27" ++ row.LakeNum ++ "\x27)"),
            "\x2d- (Pondname = \x27" ++ row.LakeNum ++ "\x27 And SampleDate = \x27" ++ GetDateTime dt "d" ++ "\x27) ", ?_, ?_⟩
    · simp [secchiStep, h, hc, hs1, String.append_assoc]
    · simp [secchiStep, h, hc, hs2, String.append_assoc]

theorem secchiValidCount_cons_none (r : SecchiRow) (rows : List SecchiRow)
    (h : r.CreationDateTimeLocal = none) :
    secchiValidCount (r :: rows) = secchiValidCount rows := by
  simp [secchiValidCount, List.filter_cons, h]

theorem secchiValidCount_cons_some (r : SecchiRow) (rows : List SecchiRow) (dt : PyDateTime)
    (h : r.CreationDateTimeLocal = some dt) :
    secchiValidCount (r :: rows) = secchiValidCount rows + 1 := by
  simp [secchiValidCount, List.filter_cons, h]

theorem secchiFold_inv (rows : List SecchiRow) : ∀ acc : SecchiAcc,
    (∀ q ∈ acc.LakeExistQueries, ∃ s, q = s ++ " And \n") →
    (∀ q ∈ (rows.foldl secchiStep acc).LakeExistQueries, ∃ s, q = s ++ " And \n")
    ∧ (rows.foldl secchiStep acc).LakeExistQueries.length
        = acc.LakeExistQueries.length + secchiValidCount rows
    ∧ (1 ≤ secchiValidCount rows →
        ∃ s, (rows.foldl secchiStep acc).PreviewQuery = s ++ "Or \n")
    ∧ (secchiValidCount rows = 0 → rows.foldl secchiStep acc = acc) := by
  induction rows with
  | nil =>
    intro acc hacc
    refine ⟨hacc, by simp [secchiValidCount], ?_, fun _ => rfl⟩
    intro hge
    simp [secchiValidCount] at hge
  | cons r rows ih =>
    intro acc hacc
    cases hr : r.CreationDateTimeLocal with
    | none =>
      have hstep := secchiStep_none acc r hr
      have hvc := secchiValidCount_cons_none r rows hr
      rw [List.foldl_cons, hstep, hvc]
      exact ih acc hacc
    | some dt =>
      obtain ⟨en, pv, hL, hP⟩ := secchiStep_some acc r dt hr
      have hacc2 : ∀ q ∈ (secchiStep acc r).LakeExistQueries, ∃ s, q = s ++ " And \n" := by
        intro q hq
        rw [hL] at hq
        rcases List.mem_append.mp hq with hq | hq
        · exact hacc q hq
        · rw [List.mem_singleton] at hq
          exact ⟨en, hq⟩
      obtain ⟨h1, h2, h3, h4⟩ := ih (secchiStep acc r) hacc2
      have hvc := secchiValidCount_cons_some r rows dt hr
      have hlen : (secchiStep acc r).LakeExistQueries.length = acc.LakeExistQueries.length + 1 := by
        rw [hL]
        simp
      refine ⟨by rw [List.foldl_cons]; exact h1, ?_, ?_, ?_⟩
      · rw [List.foldl_cons, h2, hlen, hvc]
        omega
      · intro _
        rw [List.foldl_cons]
        rcases Nat.eq_zero_or_pos (secchiValidCount rows) with h0 | hpos
        · rw [h4 h0, hP]
          exact ⟨acc.PreviewQuery ++ pv, by rw [String.append_assoc]⟩
        · exact h3 hpos
      · intro h0
        rw [hvc] at h0
        omega

/-- C1. The claim states that every export, the Monument and
Deployment/Retrieval exports included, silently skips a record with a
null CreationDateTimeLocal, producing no SQL fragment and no error. The
Monument export refutes it: on a feature class holding one record with
a null creation datetime the export body raises an AttributeError
instead of producing the (empty-statement) script it produces on an
empty feature class. -/
theorem c1_null_datetime_counterexample :
    monumentBody [monumentRowNull] = Except.error attrErrNone
    ∧ monumentBody [] = Except.ok (WrapSQLStatementsInTransaction "") := by
  exact ⟨rfl, rfl⟩

/-- C1, amended. The Secchi, Depth, Loon and Water Sample row loops skip
a record with a null CreationDateTimeLocal, leaving their state
unchanged and raising no error; the Monument per-row transformation and
the Deployment-Insert mode of the continuous export instead raise an
AttributeError (caught at function level, aborting that export). -/
theorem c1_null_datetime_amended :
    (∀ (acc : SecchiAcc) (row : SecchiRow), row.CreationDateTimeLocal = none →
       secchiStep acc row = acc)
    ∧ (∀ (src : String) (acc : DepthAcc) (row : DepthRow), row.CreationDateTimeLocal = none →
       depthStep src acc row = acc)
    ∧ (∀ (src : String) (st : LoonState) (row : LoonRow), row.CreationDateTimeLocal = none →
       loonStep src st row = Except.ok st)
    ∧ (∀ (st : WSState) (row : WaterSampleRow), row.CreationDateTimeLocal = none →
       wsStep st row = Except.ok st)
    ∧ (∀ row : MonumentRow, row.CreationDateTimeLocal = none →
       monumentRowSql row = Except.error attrErrNone)
    ∧ (∀ (fd td : String) (mp : List (String × String)) (k : Bool) (row : ContinuousRow),
       row.CreationDateTimeLocal = none →
       continuousRowSql Continuous.DEPLOYMENT_INSERT fd td mp k row = Except.error attrErrNone) := by
  exact ⟨secchiStep_none, depthStep_none, loonStep_none, wsStep_none,
         monumentRowSql_none, contInsert_none⟩

/-- C1 witness: the amended statement applied to concrete null-datetime
records of each kind. -/
theorem c1_null_datetime_amended_witness :
    secchiStep secchiInit secchiRowNull = secchiInit
    ∧ wsStep wsInit ⟨none, "P01", none, none, "", "Yes"⟩ = Except.ok wsInit
    ∧ monumentRowSql monumentRowNull = Except.error attrErrNone
    ∧ continuousRowSql Continuous.DEPLOYMENT_INSERT "2023-09-08" "2023-09-25" [] false contRowNull
        = Except.error attrErrNone := by
  exact ⟨c1_null_datetime_amended.1 secchiInit secchiRowNull rfl,
         c1_null_datetime_amended.2.2.2.1 wsInit ⟨none, "P01", none, none, "", "Yes"⟩ rfl,
         c1_null_datetime_amended.2.2.2.2.1 monumentRowNull rfl,
         c1_null_datetime_amended.2.2.2.2.2 "2023-09-08" "2023-09-25" [] false contRowNull rfl⟩

/-- C3. The claim states that for zero valid records the trailing-token
trim is not attempted because the transformer returns Skip for an empty
record set. The Secchi export refutes it: with no records it still
slices six characters off, truncating the fixed comment header (and the
preview trim likewise truncates its header), rather than producing no
guard output. -/
theorem c3_trailing_trim_counterexample :
    secchiLakeExistSection []
      = "\x2d- All the lakes in the input geodatabase must exist in tblPonds before events can be created or up\nBEGIN\n"
    ∧ secchiLakeExistSection [] ≠ LakeExistQueriesComments ++ "\nBEGIN\n"
    ∧ secchiPreviewTrimmed []
      = "SELECT PONDNAME, SAMPLEDATE, SECCHIDEPTH, SECCHIONBOTTOM, SECCHINOTES FROM tblEvents WHE" := by
  refine ⟨rfl, by decide, rfl⟩

/-- C3, amended. For every N ≥ 1 valid records the Secchi assembler
removes exactly one trailing join token after the full list is built:
the joined guard list ends in " And \x5cn" and the written section is
that text without the token; the preview list likewise ends in
"Or \x5cn" and is written without it. For N = 0 the trim is still
applied, truncating the tail of the fixed header text instead. -/
theorem c3_trailing_trim_amended (rows : List SecchiRow) :
    (1 ≤ secchiValidCount rows →
      (∃ s, LakeExistQueriesComments ++ pyJoin (secchiLoop rows).LakeExistQueries = s ++ " And \n"
         ∧ secchiLakeExistSection rows = s ++ "\nBEGIN\n")
      ∧ (∃ t, (secchiLoop rows).PreviewQuery = t ++ "Or \n"
         ∧ secchiPreviewTrimmed rows = t))
    ∧ (secchiValidCount rows = 0 →
        secchiLakeExistSection rows = pyDropRight LakeExistQueriesComments 6 ++ "\nBEGIN\n"
        ∧ secchiPreviewTrimmed rows = pyDropRight secchiPreviewHeader 4) := by
  obtain ⟨h1, h2, h3, h4⟩ := secchiFold_inv rows secchiInit (by intro q hq; simp [secchiInit, secchiPreviewHeader] at hq)
  constructor
  · intro hge
    constructor
    · have hne : (secchiLoop rows).LakeExistQueries ≠ [] := by
        unfold secchiLoop
        intro hnil
        rw [hnil] at h2
        simp [secchiInit, secchiPreviewHeader] at h2
        omega
      obtain ⟨s0, hs0⟩ := pyJoin_ends_tok " And \n" (secchiLoop rows).LakeExistQueries hne
        (by intro q hq; exact h1 q hq)
      refine ⟨LakeExistQueriesComments ++ s0, ?_, ?_⟩
      · rw [hs0, String.append_assoc]
      · unfold secchiLakeExistSection
        rw [hs0]
        rw [← String.append_assoc]
        rw [pyDropRight_append _ " And \n" 6 rfl]
    · obtain ⟨t, ht⟩ := h3 hge
      refine ⟨t, ht, ?_⟩
      unfold secchiPreviewTrimmed secchiLoop
      rw [ht, pyDropRight_append _ "Or \n" 4 rfl]
  · intro h0
    have hfold := h4 h0
    constructor
    · unfold secchiLakeExistSection secchiLoop
      rw [hfold]
      show pyDropRight (LakeExistQueriesComments ++ pyJoin []) 6 ++ "\nBEGIN\n" = _
      rw [show pyJoin [] = "" from rfl, String.append_empty]
    · unfold secchiPreviewTrimmed secchiLoop
      rw [hfold]
      rfl

/-- C3 witness: the amended statement applied to a one-record list. -/
theorem c3_trailing_trim_amended_witness :
    1 ≤ secchiValidCount [secchiRowP12]
    ∧ ((∃ s, LakeExistQueriesComments ++ pyJoin (secchiLoop [secchiRowP12]).LakeExistQueries = s ++ " And \n"
         ∧ secchiLakeExistSection [secchiRowP12] = s ++ "\nBEGIN\n")
      ∧ (∃ t, (secchiLoop [secchiRowP12]).PreviewQuery = t ++ "Or \n"
         ∧ secchiPreviewTrimmed [secchiRowP12] = t)) := by
  exact ⟨by decide, (c3_trailing_trim_amended [secchiRowP12]).1 (by decide)⟩

/-- C4. The claim and the spec say a Loon record whose OnWater value is
null or not "Yes" has its veg-type column emitted as SQL NULL,
independently of preceding records. The code has a dead null branch
(OnWater is the result of str, never None): on a first record whose
OnWater is not "Yes" the VegType variable is read unassigned, raising a
NameError that aborts the Loon export, and on a later such record the
stale "WATER" of a preceding Yes record is carried over. -/
theorem c4_loon_vegtype_code_bug :
    loonLoop "src" [loonRowNone] = Except.error nameErrVegType
    ∧ loonLoop "src" [loonRowNo] = Except.error nameErrVegType
    ∧ (∃ st, loonLoop "src" [loonRowYes, loonRowNo] = Except.ok st
        ∧ st.VegType = some "WATER" ∧ st.i = 2) := by
  refine ⟨rfl, rfl, ?_⟩
  refine ⟨_, rfl, rfl, rfl⟩

/-- C5. The end-to-end Secchi scenario: a record with LakeNum P12,
creation datetime 2023-09-10T08:30:00, depth 2.34, OnBottom No and a
whitespace-only comment produces the UPDATE fragment setting
SECCHIDEPTH = 2.3, SECCHIONBOTTOM = 0, SECCHINOTES = NULL keyed on
Pondname P12 and SampleDate 2023-09-10. -/
theorem c5_secchi_scenario :
    (secchiStep secchiInit secchiRowP12).InsertQueries.get? 3
      = some "               UPDATE tblEvents SET SECCHIDEPTH = 2.3, SECCHIONBOTTOM = 0, "
    ∧ (secchiStep secchiInit secchiRowP12).InsertQueries.get? 4
      = some "SECCHINOTES = NULL WHERE Pondname = \x27P12\x27 And SampleDate = \x272023-09-10\x27\n\n" := by
  exact ⟨rfl, rfl⟩

/-- C2. The claim states that every coordinate literal has exactly six
digits after the decimal point and every depth literal exactly one,
Deployment-Insert coordinates and Water Sample depths included. All
three parts fail on concrete records: a Depth-export coordinate of 2.5
is emitted as "2.5" (one fractional digit, not six), a Deployment-Insert
latitude passes through str unrounded with seven fractional digits, and
a Water Sample depth of 1.234 is emitted with three fractional digits,
not one. -/
theorem c2_precision_counterexample :
    depthLatitude depthRow25 = "2.5" ∧ fracLen (depthLatitude depthRow25) = 1
    ∧ deployInsertLatitude contRowL7 = "1.1234567"
    ∧ fracLen (deployInsertLatitude contRowL7) = 7
    ∧ wsDepthLit wsRowBlank = "1.234" ∧ fracLen (wsDepthLit wsRowBlank) = 3 := by
  exact ⟨rfl, rfl, rfl, rfl, rfl, rfl⟩

/-- C2, amended. Coordinate literals produced with round(x, 6) (Depth,
Loon, Monument, and the two update modes of the continuous export) have
at least one and at most six digits after the decimal point; depth
literals produced with round(x, 1) (Depth export, Secchi export) have
exactly one; Deployment-Insert coordinates and Water Sample depth
literals are emitted by str of the raw value with no rounding and hence
no digit bound. -/
theorem c2_precision_amended :
    (∀ row : DepthRow,
       (1 ≤ fracLen (depthLatitude row) ∧ fracLen (depthLatitude row) ≤ 6)
       ∧ (1 ≤ fracLen (depthLongitude row) ∧ fracLen (depthLongitude row) ≤ 6)
       ∧ fracLen (depthDepthLit row) = 1)
    ∧ (∀ row : LoonRow, fracLen (loonLatitude row) ≤ 6 ∧ fracLen (loonLongitude row) ≤ 6)
    ∧ (∀ row : MonumentRow,
        fracLen (monumentLatitude row) ≤ 6 ∧ fracLen (monumentLongitude row) ≤ 6)
    ∧ (∀ row : ContinuousRow,
        fracLen (updateLatitude row) ≤ 6 ∧ fracLen (updateLongitude row) ≤ 6)
    ∧ (∀ (row : SecchiRow) (d : Dec), row.Secchi_Depth_in_meters = some d →
        fracLen (secchiDepthLit row) = 1)
    ∧ (∀ row : ContinuousRow, deployInsertLatitude row = pyStr row.YCurrentMapCS
        ∧ deployInsertLongitude row = pyStr row.XCurrentMapCS)
    ∧ (∀ (row : WaterSampleRow) (d : Dec), row.Depth_in_meters = some d →
        wsDepthLit row = pyStr d) := by
  refine ⟨?_, ?_, ?_, ?_, ?_, ?_, ?_⟩
  · intro row
    exact ⟨⟨one_le_fracLen_pyStr _, fracLen_pyStr_round_le _ 6 (by omega)⟩,
           ⟨one_le_fracLen_pyStr _, fracLen_pyStr_round_le _ 6 (by omega)⟩,
           fracLen_pyStr_round_one _⟩
  · intro row
    exact ⟨fracLen_pyStr_round_le _ 6 (by omega), fracLen_pyStr_round_le _ 6 (by omega)⟩
  · intro row
    exact ⟨fracLen_pyStr_round_le _ 6 (by omega), fracLen_pyStr_round_le _ 6 (by omega)⟩
  · intro row
    exact ⟨fracLen_pyStr_round_le _ 6 (by omega), fracLen_pyStr_round_le _ 6 (by omega)⟩
  · intro row d hd
    simp only [secchiDepthLit, hd]
    exact fracLen_pyStr_round_one d
  · intro row
    exact ⟨rfl, rfl⟩
  · intro row d hd
    simp only [wsDepthLit, hd]

/-- C2 witness: the amended statement applied to concrete records. -/
theorem c2_precision_amended_witness :
    ((1 ≤ fracLen (depthLatitude depthRow25) ∧ fracLen (depthLatitude depthRow25) ≤ 6)
      ∧ (1 ≤ fracLen (depthLongitude depthRow25) ∧ fracLen (depthLongitude depthRow25) ≤ 6)
      ∧ fracLen (depthDepthLit depthRow25) = 1)
    ∧ fracLen (secchiDepthLit secchiRowP12) = 1
    ∧ wsDepthLit wsRowBlank = pyStr ⟨1234, 3⟩ := by
  exact ⟨c2_precision_amended.1 depthRow25,
         c2_precision_amended.2.2.2.2.1 secchiRowP12 ⟨234, 2⟩ rfl,
         c2_precision_amended.2.2.2.2.2.2 wsRowBlank ⟨1234, 3⟩ rfl⟩

theorem dictHasKey_of_lookup : ∀ (mp : List (String × String)) (k dd : String),
    dictLookup mp k = some dd → dictHasKey mp k = true := by
  intro mp k dd
  induction mp with
  | nil => intro h; simp [dictLookup] at h
  | cons p mp ih =>
    intro h
    by_cases hb : (p.1 == k) = true
    · simp [dictHasKey, List.any_cons, hb]
    · have hbf : (p.1 == k) = false := by
        cases hc : (p.1 == k)
        · rfl
        · exact absurd hc hb
      have htail : dictLookup mp k = some dd := by
        simp only [dictLookup, List.find?, hbf] at h
        exact h
      have := ih htail
      simp only [dictHasKey, List.any_cons, hbf, Bool.false_or]
      simpa [dictHasKey] using this

theorem contOutOfRange (mode : Continuous) (fd td : String) (mp : List (String × String))
    (k : Bool) (row : ContinuousRow) (dt : PyDateTime)
    (h : row.CreationDateTimeLocal = some dt)
    (hout : ¬ (pyLe fd (GetDateTime dt "d") = true ∧ pyLe (GetDateTime dt "d") td = true)) :
    continuousRowSql mode fd td mp k row = Except.ok none := by
  have hb : (pyLe fd (GetDateTime dt "d") && pyLe (GetDateTime dt "d") td) = false := by
    cases hx : (pyLe fd (GetDateTime dt "d") && pyLe (GetDateTime dt "d") td)
    · rfl
    · rw [Bool.and_eq_true] at hx
      exact absurd hx hout
  cases mode <;> simp [continuousRowSql, h, hb]

theorem contEmitRange (mode : Continuous) (fd td : String) (mp : List (String × String))
    (k : Bool) (row : ContinuousRow) (dt : PyDateTime) (s : String)
    (h : row.CreationDateTimeLocal = some dt)
    (hres : continuousRowSql mode fd td mp k row = Except.ok (some s)) :
    pyLe fd (GetDateTime dt "d") = true ∧ pyLe (GetDateTime dt "d") td = true := by
  cases hrange : (pyLe fd (GetDateTime dt "d") && pyLe (GetDateTime dt "d") td) with
  | false =>
    have hnone := contOutOfRange mode fd td mp k row dt h (by
      intro hc
      rw [hc.1, hc.2] at hrange
      simp at hrange)
    rw [hnone] at hres
    simp at hres
  | true =>
    rw [Bool.and_eq_true] at hrange
    exact hrange

/-- C6. A Deployment or Retrieval record emits a SQL statement only if
its date (from CreationDateTimeLocal) satisfies
fromDate ≤ date ≤ toDate under the string comparison the source uses;
a record outside the range (in any mode) produces no statement; and in
Deployment-Insert mode every in-range record, boundary dates included,
produces one. (Boundary inclusion follows from reflexivity of pyLe; the
witness exercises a record whose date equals fromDate.) -/
theorem c6_date_range_filter :
    (∀ (mode : Continuous) (fd td : String) (mp : List (String × String)) (k : Bool)
       (row : ContinuousRow) (dt : PyDateTime) (s : String),
       row.CreationDateTimeLocal = some dt →
       continuousRowSql mode fd td mp k row = Except.ok (some s) →
       pyLe fd (GetDateTime dt "d") = true ∧ pyLe (GetDateTime dt "d") td = true)
    ∧ (∀ (mode : Continuous) (fd td : String) (mp : List (String × String)) (k : Bool)
       (row : ContinuousRow) (dt : PyDateTime),
       row.CreationDateTimeLocal = some dt →
       ¬ (pyLe fd (GetDateTime dt "d") = true ∧ pyLe (GetDateTime dt "d") td = true) →
       continuousRowSql mode fd td mp k row = Except.ok none)
    ∧ (∀ (fd td : String) (mp : List (String × String)) (k : Bool)
       (row : ContinuousRow) (dt : PyDateTime),
       row.CreationDateTimeLocal = some dt →
       pyLe fd (GetDateTime dt "d") = true → pyLe (GetDateTime dt "d") td = true →
       ∃ s, continuousRowSql Continuous.DEPLOYMENT_INSERT fd td mp k row
          = Except.ok (some s)) := by
  refine ⟨contEmitRange, contOutOfRange, ?_⟩
  intro fd td mp k row dt h h1 h2
  simp [continuousRowSql, h, h1, h2]

/-- C6 witness: a deployment record dated 2023-09-12 emits a statement
when fromDate equals that very date (boundary included), and emits none
when fromDate is one day later. -/
theorem c6_date_range_filter_witness :
    (∃ s, continuousRowSql Continuous.DEPLOYMENT_INSERT "2023-09-12" "2023-09-25" [] false contRowL7
       = Except.ok (some s))
    ∧ continuousRowSql Continuous.DEPLOYMENT_INSERT "2023-09-13" "2023-09-25" [] false contRowL7
       = Except.ok none := by
  constructor
  · exact c6_date_range_filter.2.2 "2023-09-12" "2023-09-25" [] false contRowL7
      ⟨2023, 9, 12, 10, 0, 0⟩ rfl (by decide) (by decide)
  · exact c6_date_range_filter.2.1 Continuous.DEPLOYMENT_INSERT "2023-09-13" "2023-09-25" [] false
      contRowL7 ⟨2023, 9, 12, 10, 0, 0⟩ rfl (by decide)

/-- C7. In the two update modes, a record whose site name is not a key
of the cross-reference map emits nothing and raises no error; a record
whose site name maps to a deployment date dd and whose date is in range
emits an UPDATE whose WHERE clause is keyed on DateDeployed = dd. -/
theorem c7_crossref_lookup :
    (∀ (fd td : String) (mp : List (String × String)) (k : Bool) (row : ContinuousRow),
       dictHasKey mp row.LakeNum = false →
       continuousRowSql Continuous.DEPLOYMENT_UPDATE fd td mp k row = Except.ok none
       ∧ continuousRowSql Continuous.RETRIEVAL_UPDATE fd td mp k row = Except.ok none)
    ∧ (∀ (fd td : String) (mp : List (String × String)) (k : Bool) (row : ContinuousRow)
       (dt : PyDateTime) (dd : String),
       row.CreationDateTimeLocal = some dt →
       dictLookup mp row.LakeNum = some dd →
       pyLe fd (GetDateTime dt "d") = true → pyLe (GetDateTime dt "d") td = true →
       (∃ s1, continuousRowSql Continuous.RETRIEVAL_UPDATE fd td mp k row
          = Except.ok (some (s1 ++ ("DateDeployed = \x27" ++ dd ++ "\x27\n\n"))))
       ∧ (∃ s1, continuousRowSql Continuous.DEPLOYMENT_UPDATE fd td mp k row
          = Except.ok (some (s1 ++ ("DateDeployed = \x27" ++ dd ++ "\x27\n\n"))))) := by
  constructor
  · intro fd td mp k row hk
    exact ⟨by simp [continuousRowSql, hk], by simp [continuousRowSql, hk]⟩
  · intro fd td mp k row dt dd h hlook h1 h2
    have hk := dictHasKey_of_lookup mp row.LakeNum dd hlook
    have hsplit : ("\x27 AND DateDeployed = \x27" : String) = "\x27 AND " ++ "DateDeployed = \x27" := rfl
    constructor
    · refine ⟨"UPDATE dbo.tblContinuousDataDeployments\n"
          ++ "SET [DateRetrieved] = \x27" ++ GetDateTime dt "d" ++ "\x27,\n"
          ++ "    [TimeRetrieved] = \x27" ++ GetDateTime dt "t" ++ "\x27,\n"
          ++ "    [RetrieveLatitude] = " ++ updateLatitude row ++ ",\n"
          ++ (if k then
                "    [RetrieveLongitude] = " ++ updateLongitude row ++ ",\n"
                ++ "    [RetrievalNotes] = " ++ (if pyStrip row.Comments = "" then "NULL" else "\x27" ++ row.Comments ++ "\x27") ++ "\n"
              else
                "    [RetrieveLongitude] = " ++ updateLongitude row ++ "\n"
                ++ "\x2d-  [RetrievalNotes] = " ++ (if pyStrip row.Comments = "" then "NULL" else "\x27" ++ row.Comments ++ "\x27") ++ "\n")
          ++ ("WHERE SiteName = \x27" ++ row.LakeNum ++ "\x27 AND "), ?_⟩
      simp [continuousRowSql, h, hk, hlook, h1, h2, String.append_assoc]
      rw [hsplit, String.append_assoc]
    · refine ⟨"UPDATE dbo.tblContinuousDataDeployments\n"
          ++ "SET [DeployLatitude] = " ++ updateLatitude row ++ ",\n"
          ++ (if k then
                "    [DeployLongitude] = " ++ updateLongitude row ++ ",\n"
                ++ "    [DeploymentNotes] = " ++ (if pyStrip row.Comments = "" then "NULL" else "\x27" ++ row.Comments ++ "\x27") ++ "\n"
              else
                "    [DeployLongitude] = " ++ updateLongitude row ++ "\n"
                ++ "\x2d-  [DeploymentNotes] = " ++ (if pyStrip row.Comments = "" then "NULL" else "\x27" ++ row.Comments ++ "\x27") ++ "\n")
          ++ ("WHERE SiteName = \x27" ++ row.LakeNum ++ "\x27 AND "), ?_⟩
      simp [continuousRowSql, h, hk, hlook, h1, h2, String.append_assoc]
      rw [hsplit, String.append_assoc]

/-- C7 witness: a retrieval record for site L9 emits nothing when the
map is empty, and with L9 mapped to a deployment date the emitted
UPDATE is keyed on that date. -/
theorem c7_crossref_lookup_witness :
    (continuousRowSql Continuous.DEPLOYMENT_UPDATE "2023-09-08" "2023-09-25" [] false contRowL9
       = Except.ok none
     ∧ continuousRowSql Continuous.RETRIEVAL_UPDATE "2023-09-08" "2023-09-25" [] false contRowL9
       = Except.ok none)
    ∧ (∃ s1, continuousRowSql Continuous.RETRIEVAL_UPDATE "2023-09-08" "2023-09-25"
         [("L9", "2023-06-01")] false contRowL9
       = Except.ok (some (s1 ++ ("DateDeployed = \x272023-06-01\x27\n\n")))) := by
  constructor
  · exact c7_crossref_lookup.1 "2023-09-08" "2023-09-25" [] false contRowL9 rfl
  · have h := (c7_crossref_lookup.2 "2023-09-08" "2023-09-25" [("L9", "2023-06-01")] false
      contRowL9 dt0 "2023-06-01" rfl rfl (by decide) (by decide)).1
    obtain ⟨s1, hs1⟩ := h
    refine ⟨s1, by rw [hs1]; rfl⟩

/-- C8. A Water Sample record whose sample number field is blank or
whitespace-only gets sample number "A": the export normalization
(wsSampleNumber, interpolated into the INSERT as the SAMPLENUMBER
literal) yields "A", and the primary key computed by GetPrimaryKeys
carries key suffix "A". -/
theorem c8_sample_number_default :
    ∀ (row : WaterSampleRow) (dt : PyDateTime),
      row.CreationDateTimeLocal = some dt →
      pyStrip (pyUpper (pyStrOpt row.Sample_Number__A__B__C_)) = "" →
      pyStrip (pyStrOpt row.Sample_Number__A__B__C_) = "" →
      wsSampleNumber row = "A"
      ∧ wsPrimaryKey row = some (pyUpper (row.LakeNum ++ GetDateTime dt "d") ++ "A") := by
  intro row dt h h1 h2
  constructor
  · simp [wsSampleNumber, h1]
  · simp only [wsPrimaryKey, h, h2, if_pos rfl]
    rw [pyUpper_append]
    rfl

/-- C8 witness: the record with SampleNumber two spaces produces sample
number "A" and key suffix "A". -/
theorem c8_sample_number_default_witness :
    wsSampleNumber wsRowBlank = "A"
    ∧ wsPrimaryKey wsRowBlank = some (pyUpper ("P12" ++ GetDateTime dt0 "d") ++ "A") := by
  exact c8_sample_number_default wsRowBlank dt0 rfl (by decide) (by decide)

/-- C9. Every export runs behind the shared try/except wrapper: the
batch produces one outcome per export (all six always run), the outcome
of each slot is its own body passed through the wrapper, a body that
raises is reported as a diagnostic prefixed with the per-function error
head, and a body that succeeds yields its SQL — so no error escapes an
export and a failing export cannot prevent the others from running. -/
theorem c9_errors_isolated (inp : BatchInput) :
    (runBatch inp).length = 6
    ∧ (∀ (i : Nat) (p : String × Except String String), (exportsOf inp)[i]? = some p →
        (runBatch inp)[i]? = some (handleExport p.1 p.2))
    ∧ (∀ (i : Nat) (p : String × Except String String) (e : String),
        (exportsOf inp)[i]? = some p → p.2 = Except.error e →
        (runBatch inp)[i]? = some (Outcome.reported (p.1 ++ e)))
    ∧ (∀ (i : Nat) (p : String × Except String String) (s : String),
        (exportsOf inp)[i]? = some p → p.2 = Except.ok s →
        (runBatch inp)[i]? = some (Outcome.finished s)) := by
  refine ⟨?_, ?_, ?_, ?_⟩
  · simp [runBatch, exportsOf]
  · intro i p hp
    unfold runBatch
    rw [List.getElem?_map, hp]
    rfl
  · intro i p e hp he
    unfold runBatch
    rw [List.getElem?_map, hp]
    simp [handleExport, he]
  · intro i p s hp hs
    unfold runBatch
    rw [List.getElem?_map, hp]
    simp [handleExport, hs]

/-- C9 witness: on a batch whose monument feature class holds a
null-datetime record, the monument slot reports the caught
AttributeError while the batch still has all six outcomes and the
Secchi slot finishes normally. -/
theorem c9_errors_isolated_witness :
    (runBatch batchInput0).length = 6
    ∧ (runBatch batchInput0)[4]?
        = some (Outcome.reported ("Error in function ExportMonumentJoined: " ++ attrErrNone))
    ∧ (runBatch batchInput0)[0]? = some (Outcome.finished (secchiText [])) := by
  refine ⟨(c9_errors_isolated batchInput0).1, ?_, ?_⟩
  · exact (c9_errors_isolated batchInput0).2.2.1 4
      ("Error in function ExportMonumentJoined: ", monumentBody [monumentRowNull]) attrErrNone rfl rfl
  · exact (c9_errors_isolated batchInput0).2.2.2 0
      ("Error in function ExportSecchiJoined: ", secchiBody []) (secchiText []) rfl rfl

theorem wsStep_ok_of_yes (st : WSState) (row : WaterSampleRow) (dt : PyDateTime)
    (h : row.CreationDateTimeLocal = some dt)
    (hy : pyStrip row.Water_Bottles_Collected_ = "Yes") :
    ∃ st2, wsStep st row = Except.ok st2 ∧ st2.flags = some (wsFlagsOf "1") := by
  simp [wsStep, h, hy]

theorem wsStep_ok_of_no (st : WSState) (row : WaterSampleRow) (dt : PyDateTime)
    (h : row.CreationDateTimeLocal = some dt)
    (hn : pyStrip row.Water_Bottles_Collected_ = "No") :
    ∃ st2, wsStep st row = Except.ok st2 ∧ st2.flags = some (wsFlagsOf "0") := by
  simp [wsStep, h, hn]

theorem wsFold_ok : ∀ (rows : List WaterSampleRow) (st : WSState),
    (∀ row ∈ rows, row.CreationDateTimeLocal ≠ none →
      pyStrip row.Water_Bottles_Collected_ = "Yes"
      ∨ pyStrip row.Water_Bottles_Collected_ = "No") →
    ∃ st2, List.foldlM wsStep st rows = Except.ok st2 := by
  intro rows
  induction rows with
  | nil => intro st _; exact ⟨st, rfl⟩
  | cons r rows ih =>
    intro st hall
    have htail : ∀ row ∈ rows, row.CreationDateTimeLocal ≠ none →
        pyStrip row.Water_Bottles_Collected_ = "Yes"
        ∨ pyStrip row.Water_Bottles_Collected_ = "No" :=
      fun row hm => hall row (List.mem_cons_of_mem r hm)
    cases hr : r.CreationDateTimeLocal with
    | none =>
      obtain ⟨st2, h2⟩ := ih st htail
      refine ⟨st2, ?_⟩
      rw [List.foldlM_cons, wsStep_none st r hr]
      exact h2
    | some dt =>
      rcases hall r (List.mem_cons_self r rows) (by rw [hr]; simp) with hy | hn
      · obtain ⟨stm, hstep, _⟩ := wsStep_ok_of_yes st r dt hr hy
        obtain ⟨st2, h2⟩ := ih stm htail
        refine ⟨st2, ?_⟩
        rw [List.foldlM_cons, hstep]
        exact h2
      · obtain ⟨stm, hstep, _⟩ := wsStep_ok_of_no st r dt hr hn
        obtain ⟨st2, h2⟩ := ih stm htail
        refine ⟨st2, ?_⟩
        rw [List.foldlM_cons, hstep]
        exact h2

/-- C10. Under the precondition that every valid record strips its
Water_Bottles_Collected_ value to exactly "Yes" or "No", the Water
Sample loop never reaches the unbound-flag error: every step succeeds
with the five collection flags uniformly "1" for "Yes" and "0" for
"No", and the whole loop returns normally. On an input whose first
valid record strips to a value outside Yes/No, the loop raises the
NameError for the unassigned O18_Coll, which the wrapper reports, and
the run emits no INSERT. -/
theorem c10_water_bottle_flags :
    (∀ rows : List WaterSampleRow,
       (∀ row ∈ rows, row.CreationDateTimeLocal ≠ none →
         pyStrip row.Water_Bottles_Collected_ = "Yes"
         ∨ pyStrip row.Water_Bottles_Collected_ = "No") →
       ∃ st, wsLoop rows = Except.ok st)
    ∧ (∀ (st : WSState) (row : WaterSampleRow) (dt : PyDateTime),
       row.CreationDateTimeLocal = some dt →
       pyStrip row.Water_Bottles_Collected_ = "Yes" →
       ∃ st2, wsStep st row = Except.ok st2 ∧ st2.flags = some (wsFlagsOf "1"))
    ∧ (∀ (st : WSState) (row : WaterSampleRow) (dt : PyDateTime),
       row.CreationDateTimeLocal = some dt →
       pyStrip row.Water_Bottles_Collected_ = "No" →
       ∃ st2, wsStep st row = Except.ok st2 ∧ st2.flags = some (wsFlagsOf "0"))
    ∧ wsLoop [wsRowMaybe] = Except.error nameErrO18
    ∧ handleExport "Error in function ExportWaterSampleJoined: " (wsBody [wsRowMaybe])
        = Outcome.reported ("Error in function ExportWaterSampleJoined: " ++ nameErrO18) := by
  exact ⟨fun rows hall => wsFold_ok rows wsInit hall,
         wsStep_ok_of_yes, wsStep_ok_of_no, rfl, rfl⟩

/-- C10 witness: the flag machinery applied to a concrete all-Yes input
and a concrete Yes record. -/
theorem c10_water_bottle_flags_witness :
    (∃ st, wsLoop [wsRowBlank] = Except.ok st)
    ∧ (∃ st2, wsStep wsInit wsRowBlank = Except.ok st2
        ∧ st2.flags = some (wsFlagsOf "1")) := by
  exact ⟨c10_water_bottle_flags.1 [wsRowBlank] (by decide),
         c10_water_bottle_flags.2.1 wsInit wsRowBlank dt0 rfl (by decide)⟩

end Trimble
